import Mathlib

/-!
Verification development for the suerteyviaja raffle backend
(`servidor.js`, with the full working revision in `src/unnamed/part_000`).

The definitions below are a shallow embedding of the server's core logic:
the occupied-numbers computation of `GET /api/ocupados`, the admission
logic of `POST /api/reservar`, and the lifecycle transitions of
`POST /api/participacion/:id/validar` and `/rechazar`.  The reservation
store is modelled as a list of records; JavaScript `Date.now()` values and
record timestamps are modelled as `Int` (milliseconds), so that
`ahora - TREINTA_MINUTOS` can go negative exactly as in JavaScript.
-/

/-- Reservation status (`estado` column): `pendiente`, `confirmado`, `rechazado`. -/
inductive Estado where
  | pendiente
  | confirmado
  | rechazado
deriving DecidableEq, Repr

/-- A stored reservation row of the `participaciones` table.
`numeros` is `Option`al because the code guards every use with
`p.numeros || []`, i.e. the column may be null/missing. -/
structure Participacion where
  id : Nat
  nombre : String
  telefono : String
  correo : String
  numeros : Option (List Int)
  referencia : String
  fecha : String
  estado : Estado
  timestamp : Int
deriving DecidableEq, Repr

/-- Hold window used by `servidor.js` (`30 * 60 * 1000` ms). -/
def TREINTA_MINUTOS_servidor : Int := 30 * 60 * 1000

/-- Hold window used by `part_000` (misnamed `TREINTA_MINUTOS` in the source
but equal to `8 * 60 * 60 * 1000` ms). -/
def TREINTA_MINUTOS_part000 : Int := 8 * 60 * 60 * 1000

/-- The filter of `GET /api/ocupados`:
`p.estado === 'confirmado' || (p.estado === 'pendiente' && p.timestamp > ahora - TREINTA_MINUTOS)`. -/
def ocupadosFiltro (holdWindowMs ahora : Int) (p : Participacion) : Bool :=
  p.estado == Estado.confirmado ||
    (p.estado == Estado.pendiente && decide (p.timestamp > ahora - holdWindowMs))

/-- The occupied-numbers computation of `GET /api/ocupados`:
`data.filter(...).flatMap(p => p.numeros || [])`.  The endpoint then wraps
this in a `Set`, so only membership matters to callers. -/
def computeOcupados (data : List Participacion) (holdWindowMs ahora : Int) : List Int :=
  (data.filter (ocupadosFiltro holdWindowMs ahora)).flatMap (fun p => p.numeros.getD [])

/-- The occupied set used by `POST /api/reservar`'s conflict check:
`new Set(todas.flatMap(p => p.numeros || []))` — every stored reservation's
numbers, regardless of `estado` or age. -/
def ocupadosTodos (todas : List Participacion) : List Int :=
  todas.flatMap (fun p => p.numeros.getD [])

/-- An incoming `POST /api/reservar` body.  String fields model JavaScript
truthiness with the empty string for missing/empty; `timestamp` is `none`
when absent (and `some 0` is likewise falsy in the source's check);
`numeros = none` models a body whose `numeros` is not an array. -/
structure ReservaRequest where
  nombre : String
  telefono : String
  correo : String
  numeros : Option (List Int)
  referencia : String
  fecha : String
  timestamp : Option Int
deriving DecidableEq, Repr

/-- JavaScript truthiness of a string field: falsy iff empty/missing. -/
def truthyStr (s : String) : Bool := !s.isEmpty

/-- JavaScript truthiness of the `timestamp` field: falsy when absent or `0`. -/
def truthyTs : Option Int → Bool
  | none => false
  | some t => t != 0

/-- The validation guard of `POST /api/reservar`:
`!nombre || !telefono || !correo || !referencia || !fecha || !timestamp ||
 !Array.isArray(numeros) || numeros.length < 2` (negated). -/
def validReserva (r : ReservaRequest) : Bool :=
  truthyStr r.nombre && truthyStr r.telefono && truthyStr r.correo &&
    truthyStr r.referencia && truthyStr r.fecha && truthyTs r.timestamp &&
    r.numeros.isSome && decide ((r.numeros.getD []).length ≥ 2)

/-- Response of `POST /api/reservar`. -/
inductive ReservarResp where
  /-- 400 `Faltan datos o números insuficientes.` -/
  | faltanDatos
  /-- 409 `Números ya usados: <repetidos>` -/
  | numerosYaUsados (repetidos : List Int)
  /-- 409 `La referencia de pago ya ha sido utilizada.` -/
  | referenciaYaUsada
  /-- 201 `{ id }` -/
  | creado (id : Nat)
  /-- 500 `Error al registrar participación.` (email send threw after insert) -/
  | errorRegistrar
deriving DecidableEq, Repr

/-- The record inserted by `POST /api/reservar` on success:
`{ nombre, telefono, correo, numeros, referencia, fecha, estado: 'pendiente', timestamp }`. -/
def nuevaParticipacion (nextId : Nat) (r : ReservaRequest) : Participacion :=
  { id := nextId, nombre := r.nombre, telefono := r.telefono, correo := r.correo,
    numeros := r.numeros, referencia := r.referencia, fecha := r.fecha,
    estado := Estado.pendiente, timestamp := r.timestamp.getD 0 }

/-- `POST /api/reservar` (the complete revision, `part_000` lines 100-158):
validate; read all rows; conflict-check the requested numbers against
`ocupadosTodos`; conflict-check the payment reference against all rows;
insert with `estado = 'pendiente'`; send the receipt email.  `emailOk`
models whether the email collaborator succeeds; when it throws, the catch
block answers 500 but the inserted row remains.  Returns the response and
the resulting store. -/
def reservar (store : List Participacion) (nextId : Nat) (r : ReservaRequest)
    (emailOk : Bool) : ReservarResp × List Participacion :=
  if !validReserva r then
    (ReservarResp.faltanDatos, store)
  else
    let ocupados := ocupadosTodos store
    let repetidos := (r.numeros.getD []).filter (fun n => ocupados.contains n)
    if repetidos.length > 0 then
      (ReservarResp.numerosYaUsados repetidos, store)
    else
      let referencias := store.filter (fun p => p.referencia == r.referencia)
      if referencias.length > 0 then
        (ReservarResp.referenciaYaUsada, store)
      else
        let store2 := store ++ [nuevaParticipacion nextId r]
        if emailOk then
          (ReservarResp.creado nextId, store2)
        else
          (ReservarResp.errorRegistrar, store2)

/-- Response of the lifecycle endpoints `validar` / `rechazar`. -/
inductive LifecycleResp where
  /-- 404 `Participación no encontrada.` -/
  | notFound
  /-- 400 `Ya validada.` -/
  | yaValidada
  /-- 400 `No se puede rechazar una participación ya validada.` -/
  | noSePuedeRechazar
  /-- 200 `{ success: true }` -/
  | ok
  /-- 500: email send threw after the status update -/
  | errorCorreo
deriving DecidableEq, Repr

/-- `.eq('id', id).single()` on the `participaciones` table. -/
def findById (store : List Participacion) (id : Nat) : Option Participacion :=
  store.find? (fun p => p.id == id)

/-- `.update({ estado }).eq('id', id)` on the `participaciones` table. -/
def updateEstado (store : List Participacion) (id : Nat) (e : Estado) :
    List Participacion :=
  store.map (fun p => if p.id == id then { p with estado := e } else p)

/-- `POST /api/participacion/:id/validar`: 404 if the row is missing,
400 if already `confirmado`, otherwise set `estado = 'confirmado'` and send
the confirmation email (`emailOk` models its outcome; a throw answers 500
but the update remains). -/
def validar (store : List Participacion) (id : Nat) (emailOk : Bool) :
    LifecycleResp × List Participacion :=
  match findById store id with
  | none => (LifecycleResp.notFound, store)
  | some p =>
    if p.estado == Estado.confirmado then
      (LifecycleResp.yaValidada, store)
    else
      let store2 := updateEstado store id Estado.confirmado
      if emailOk then (LifecycleResp.ok, store2) else (LifecycleResp.errorCorreo, store2)

/-- `POST /api/participacion/:id/rechazar`: 404 if the row is missing,
400 if `confirmado`, otherwise set `estado = 'rechazado'` (even when already
`rechazado`) and send the rejection email. -/
def rechazar (store : List Participacion) (id : Nat) (emailOk : Bool) :
    LifecycleResp × List Participacion :=
  match findById store id with
  | none => (LifecycleResp.notFound, store)
  | some p =>
    if p.estado == Estado.confirmado then
      (LifecycleResp.noSePuedeRechazar, store)
    else
      let store2 := updateEstado store id Estado.rechazado
      if emailOk then (LifecycleResp.ok, store2) else (LifecycleResp.errorCorreo, store2)

/-- A response of `POST /api/reservar` that maps to HTTP 409 Conflict. -/
def esConflicto : ReservarResp → Bool
  | ReservarResp.numerosYaUsados _ => true
  | ReservarResp.referenciaYaUsada => true
  | _ => false

theorem mem_computeOcupados {data : List Participacion} {W ahora n : Int} :
    n ∈ computeOcupados data W ahora ↔
      ∃ p ∈ data, n ∈ p.numeros.getD [] ∧ ocupadosFiltro W ahora p = true := by
  simp only [computeOcupados, List.mem_flatMap, List.mem_filter]
  tauto

theorem ocupadosFiltro_iff {W ahora : Int} {p : Participacion} :
    ocupadosFiltro W ahora p = true ↔
      p.estado = Estado.confirmado ∨
        (p.estado = Estado.pendiente ∧ p.timestamp > ahora - W) := by
  simp [ocupadosFiltro, Bool.or_eq_true, Bool.and_eq_true, beq_iff_eq,
    decide_eq_true_iff]

/-- Claim C1: a number is in the occupied set of `GET /api/ocupados` iff some
stored reservation holds it and that reservation is `confirmado`, or is
`pendiente` with `timestamp > ahora - holdWindow`; in particular a
`rechazado` reservation never passes the filter, regardless of age. -/
theorem C1_ocupados_characterization (data : List Participacion) (W ahora n : Int) :
    (n ∈ computeOcupados data W ahora ↔
      ∃ p ∈ data, n ∈ p.numeros.getD [] ∧
        (p.estado = Estado.confirmado ∨
          (p.estado = Estado.pendiente ∧ p.timestamp > ahora - W))) ∧
    (∀ p : Participacion, p.estado = Estado.rechazado →
      ocupadosFiltro W ahora p = false) := by
  constructor
  · rw [mem_computeOcupados]
    constructor
    · rintro ⟨p, hp, hn, hf⟩
      exact ⟨p, hp, hn, ocupadosFiltro_iff.mp hf⟩
    · rintro ⟨p, hp, hn, hf⟩
      exact ⟨p, hp, hn, ocupadosFiltro_iff.mpr hf⟩
  · intro p hp
    simp [ocupadosFiltro, hp]

/-- Witness for C1 at concrete records: number 5 of a fresh pending record is
occupied, and a rejected record never passes the filter. -/
theorem C1_ocupados_characterization_witness :
    (5 : Int) ∈ computeOcupados
        [{ id := 1, nombre := "a", telefono := "t", correo := "c",
           numeros := some [5, 6], referencia := "R1", fecha := "f",
           estado := Estado.pendiente, timestamp := 1000 }] 1800000 1000 ∧
    ocupadosFiltro 1800000 1000
        { id := 2, nombre := "b", telefono := "t", correo := "c",
          numeros := some [9, 10], referencia := "R2", fecha := "f",
          estado := Estado.rechazado, timestamp := 1000 } = false := by
  constructor
  · exact (C1_ocupados_characterization _ 1800000 1000 5).1.mpr
      ⟨{ id := 1, nombre := "a", telefono := "t", correo := "c",
         numeros := some [5, 6], referencia := "R1", fecha := "f",
         estado := Estado.pendiente, timestamp := 1000 },
       by decide, by decide, Or.inr ⟨rfl, by decide⟩⟩
  · exact (C1_ocupados_characterization [] 1800000 1000 5).2 _ rfl

/-- Claim C7: for a store of pending-only records, the occupied set is
monotonically non-increasing in the current time: any number occupied at a
later time `t2` is occupied at any earlier time `t1`. -/
theorem C7_ocupados_antitone (data : List Participacion) (W t1 t2 : Int)
    (hpend : ∀ p ∈ data, p.estado = Estado.pendiente) (hle : t1 ≤ t2) :
    ∀ n : Int, n ∈ computeOcupados data W t2 → n ∈ computeOcupados data W t1 := by
  intro n hn
  rw [mem_computeOcupados] at hn ⊢
  rcases hn with ⟨p, hp, hnum, hf⟩
  refine ⟨p, hp, hnum, ?_⟩
  rw [ocupadosFiltro_iff] at hf ⊢
  rcases hf with hf | ⟨hpe, ht⟩
  · exact Or.inl hf
  · exact Or.inr ⟨hpe, by omega⟩

/-- Witness for C7: a pending record from time 1000 with hold window 1800000,
occupied at time 2000, is occupied at time 1500. -/
theorem C7_ocupados_antitone_witness :
    (5 : Int) ∈ computeOcupados
        [{ id := 1, nombre := "a", telefono := "t", correo := "c",
           numeros := some [5, 6], referencia := "R1", fecha := "f",
           estado := Estado.pendiente, timestamp := 1000 }] 1800000 1500 :=
  C7_ocupados_antitone
    [{ id := 1, nombre := "a", telefono := "t", correo := "c",
       numeros := some [5, 6], referencia := "R1", fecha := "f",
       estado := Estado.pendiente, timestamp := 1000 }] 1800000 1500 2000
    (by intro p hp; simp at hp; subst hp; rfl) (by omega) 5 (by decide)

/-- Counterexample for C2: a store holding one `rechazado` reservation with
number 5 and an ancient timestamp.  Under the status-aware rule of §4.2 the
number 5 is free (the §4.2 occupied set is empty), yet `POST /api/reservar`
for numbers `[5, 6]` answers 409 `Números ya usados: 5`, because the code's
conflict check flattens all stored reservations regardless of `estado`. -/
theorem C2_counterexample :
    (reservar
        [{ id := 1, nombre := "a", telefono := "t", correo := "c",
           numeros := some [5], referencia := "R1", fecha := "f",
           estado := Estado.rechazado, timestamp := 0 }] 2
        { nombre := "b", telefono := "t", correo := "c",
          numeros := some [5, 6], referencia := "R2", fecha := "f",
          timestamp := some 1000000000 } true).1 =
      ReservarResp.numerosYaUsados [5] ∧
    computeOcupados
        [{ id := 1, nombre := "a", telefono := "t", correo := "c",
           numeros := some [5], referencia := "R1", fecha := "f",
           estado := Estado.rechazado, timestamp := 0 }]
        TREINTA_MINUTOS_servidor 1000000000 = [] := by
  constructor
  · rfl
  · rfl

/-- Claim C2 as amended: the admission conflict check of `POST /api/reservar`
computes its occupied set from the numbers of ALL stored reservations,
regardless of status or age (so `rechazado` and expired `pendiente`
reservations do block new requests); when the requested numbers intersect
that set, it fails with 409 listing exactly the overlapping numbers, in
request order, and inserts nothing. -/
theorem C2_reservar_conflict_all_statuses (store : List Participacion)
    (nextId : Nat) (r : ReservaRequest) (emailOk : Bool)
    (hv : validReserva r = true)
    (hreps : (r.numeros.getD []).filter
        (fun n => (ocupadosTodos store).contains n) ≠ []) :
    reservar store nextId r emailOk =
      (ReservarResp.numerosYaUsados
        ((r.numeros.getD []).filter (fun n => (ocupadosTodos store).contains n)),
       store) := by
  have hlen : 0 < ((r.numeros.getD []).filter
      (fun n => (ocupadosTodos store).contains n)).length :=
    List.length_pos.mpr hreps
  unfold reservar
  rw [hv]
  rw [if_neg (by simp)]
  simp only []
  rw [if_pos hlen]

/-- Witness for the amended C2: against the counterexample store, requesting
`[5, 6]` yields 409 listing exactly `[5]` and leaves the store unchanged. -/
theorem C2_reservar_conflict_all_statuses_witness :
    reservar
        [{ id := 1, nombre := "a", telefono := "t", correo := "c",
           numeros := some [5], referencia := "R1", fecha := "f",
           estado := Estado.rechazado, timestamp := 0 }] 2
        { nombre := "b", telefono := "t", correo := "c",
          numeros := some [5, 6], referencia := "R2", fecha := "f",
          timestamp := some 1000000000 } true =
      (ReservarResp.numerosYaUsados [5],
       [{ id := 1, nombre := "a", telefono := "t", correo := "c",
          numeros := some [5], referencia := "R1", fecha := "f",
          estado := Estado.rechazado, timestamp := 0 }]) :=
  C2_reservar_conflict_all_statuses
    [{ id := 1, nombre := "a", telefono := "t", correo := "c",
       numeros := some [5], referencia := "R1", fecha := "f",
       estado := Estado.rechazado, timestamp := 0 }] 2
    { nombre := "b", telefono := "t", correo := "c",
      numeros := some [5, 6], referencia := "R2", fecha := "f",
      timestamp := some 1000000000 } true (by decide) (by decide)

/-- Claim C3: a valid reservation request whose `referencia` equals the
`referencia` of any stored reservation — whatever that reservation's
status — fails with 409 Conflict, and no record is inserted (the store is
unchanged). -/
theorem C3_referencia_duplicada (store : List Participacion) (nextId : Nat)
    (r : ReservaRequest) (emailOk : Bool) (hv : validReserva r = true)
    (href : ∃ p ∈ store, p.referencia = r.referencia) :
    esConflicto (reservar store nextId r emailOk).1 = true ∧
      (reservar store nextId r emailOk).2 = store := by
  rcases href with ⟨p, hp, hpr⟩
  have hrefs : 0 < (store.filter (fun q => q.referencia == r.referencia)).length := by
    apply List.length_pos.mpr
    intro hnil
    have hmem : p ∈ store.filter (fun q => q.referencia == r.referencia) :=
      List.mem_filter.mpr ⟨hp, by simp [hpr]⟩
    rw [hnil] at hmem
    exact (List.not_mem_nil p) hmem
  by_cases hrep : 0 < ((r.numeros.getD []).filter
      (fun n => (ocupadosTodos store).contains n)).length
  · have he : reservar store nextId r emailOk =
        (ReservarResp.numerosYaUsados ((r.numeros.getD []).filter
          (fun n => (ocupadosTodos store).contains n)), store) := by
      unfold reservar
      rw [hv]
      rw [if_neg (by simp)]
      simp only []
      rw [if_pos hrep]
    rw [he]
    exact ⟨rfl, rfl⟩
  · have he : reservar store nextId r emailOk =
        (ReservarResp.referenciaYaUsada, store) := by
      unfold reservar
      rw [hv]
      rw [if_neg (by simp)]
      simp only []
      rw [if_neg hrep, if_pos hrefs]
    rw [he]
    exact ⟨rfl, rfl⟩

/-- Witness for C3: a valid request reusing reference `R1` of a rejected
record (with non-conflicting numbers) is answered with 409 and the store is
unchanged. -/
theorem C3_referencia_duplicada_witness :
    esConflicto (reservar
        [{ id := 1, nombre := "a", telefono := "t", correo := "c",
           numeros := some [5], referencia := "R1", fecha := "f",
           estado := Estado.rechazado, timestamp := 0 }] 2
        { nombre := "b", telefono := "t", correo := "c",
          numeros := some [7, 8], referencia := "R1", fecha := "f",
          timestamp := some 1000000000 } true).1 = true ∧
    (reservar
        [{ id := 1, nombre := "a", telefono := "t", correo := "c",
           numeros := some [5], referencia := "R1", fecha := "f",
           estado := Estado.rechazado, timestamp := 0 }] 2
        { nombre := "b", telefono := "t", correo := "c",
          numeros := some [7, 8], referencia := "R1", fecha := "f",
          timestamp := some 1000000000 } true).2 =
      [{ id := 1, nombre := "a", telefono := "t", correo := "c",
         numeros := some [5], referencia := "R1", fecha := "f",
         estado := Estado.rechazado, timestamp := 0 }] :=
  C3_referencia_duplicada
    [{ id := 1, nombre := "a", telefono := "t", correo := "c",
       numeros := some [5], referencia := "R1", fecha := "f",
       estado := Estado.rechazado, timestamp := 0 }] 2
    { nombre := "b", telefono := "t", correo := "c",
      numeros := some [7, 8], referencia := "R1", fecha := "f",
      timestamp := some 1000000000 } true (by decide)
    ⟨{ id := 1, nombre := "a", telefono := "t", correo := "c",
       numeros := some [5], referencia := "R1", fecha := "f",
       estado := Estado.rechazado, timestamp := 0 }, by decide, rfl⟩

/-- Claim C6: a `POST /api/reservar` body with any of the six scalar fields
missing/empty, or whose `numeros` is not an array of length at least 2, is
answered 400 and the store is unchanged (the guard runs before any store
access). -/
theorem C6_invalid_request (store : List Participacion) (nextId : Nat)
    (r : ReservaRequest) (emailOk : Bool)
    (h : r.nombre.isEmpty = true ∨ r.telefono.isEmpty = true ∨
         r.correo.isEmpty = true ∨ r.referencia.isEmpty = true ∨
         r.fecha.isEmpty = true ∨ r.timestamp = none ∨ r.numeros = none ∨
         (r.numeros.getD []).length < 2) :
    reservar store nextId r emailOk = (ReservarResp.faltanDatos, store) := by
  have hv : validReserva r = false := by
    cases hb : validReserva r
    · rfl
    · exfalso
      simp only [validReserva, Bool.and_eq_true, decide_eq_true_iff] at hb
      obtain ⟨⟨⟨⟨⟨⟨⟨h1, h2⟩, h3⟩, h4⟩, h5⟩, h6⟩, h7⟩, h8⟩ := hb
      rcases h with h | h | h | h | h | h | h | h
      · simp [truthyStr, h] at h1
      · simp [truthyStr, h] at h2
      · simp [truthyStr, h] at h3
      · simp [truthyStr, h] at h4
      · simp [truthyStr, h] at h5
      · rw [h] at h6
        simp [truthyTs] at h6
      · rw [h] at h7
        simp at h7
      · omega
  unfold reservar
  rw [hv]
  rw [if_pos (by simp)]

/-- Witness for C6, the spec's end-to-end example: a body with a single
number `[7]` (all other fields present) is answered 400 on an empty store. -/
theorem C6_invalid_request_witness :
    reservar [] 1
        { nombre := "n", telefono := "t", correo := "c", numeros := some [7],
          referencia := "R1", fecha := "f", timestamp := some 1000 } true =
      (ReservarResp.faltanDatos, []) :=
  C6_invalid_request [] 1
    { nombre := "n", telefono := "t", correo := "c", numeros := some [7],
      referencia := "R1", fecha := "f", timestamp := some 1000 } true (by decide)

/-- Counterexample for C4: `rechazado` is not terminal.  On a store holding a
single rejected reservation, `POST /api/participacion/1/validar` succeeds
and rewrites its status to `confirmado`. -/
theorem C4_counterexample :
    validar
        [{ id := 1, nombre := "a", telefono := "t", correo := "c",
           numeros := some [5, 6], referencia := "R1", fecha := "f",
           estado := Estado.rechazado, timestamp := 1000 }] 1 true =
      (LifecycleResp.ok,
       [{ id := 1, nombre := "a", telefono := "t", correo := "c",
          numeros := some [5, 6], referencia := "R1", fecha := "f",
          estado := Estado.confirmado, timestamp := 1000 }]) := by
  rfl

/-- Claim C4 as amended: states are `{pendiente, confirmado, rechazado}`,
newly inserted records start as `pendiente`, and `confirmado` alone is
terminal: neither endpoint touches a confirmed record.  `rechazado` is not
terminal — `validar` on a rejected record rewrites it to `confirmado`. -/
theorem C4_state_machine (store : List Participacion) (id : Nat) (ok : Bool)
    (p : Participacion) (hfind : findById store id = some p)
    (nid : Nat) (r : ReservaRequest) :
    (nuevaParticipacion nid r).estado = Estado.pendiente ∧
    (p.estado = Estado.confirmado →
      validar store id ok = (LifecycleResp.yaValidada, store) ∧
      rechazar store id ok = (LifecycleResp.noSePuedeRechazar, store)) ∧
    (p.estado = Estado.rechazado →
      (validar store id ok).2 = updateEstado store id Estado.confirmado) := by
  refine ⟨rfl, ?_, ?_⟩
  · intro h
    constructor
    · unfold validar
      rw [hfind]
      simp only []
      rw [if_pos (by simp [h])]
    · unfold rechazar
      rw [hfind]
      simp only []
      rw [if_pos (by simp [h])]
  · intro h
    unfold validar
    rw [hfind]
    simp only []
    rw [if_neg (by simp [h])]
    cases ok <;> rfl

/-- Witness for C4: on a confirmed record both endpoints answer 400 leaving
the store unchanged, and on a rejected record `validar` sets `confirmado`. -/
theorem C4_state_machine_witness :
    (validar
        [{ id := 1, nombre := "a", telefono := "t", correo := "c",
           numeros := some [5, 6], referencia := "R1", fecha := "f",
           estado := Estado.confirmado, timestamp := 1000 }] 1 true =
      (LifecycleResp.yaValidada,
       [{ id := 1, nombre := "a", telefono := "t", correo := "c",
          numeros := some [5, 6], referencia := "R1", fecha := "f",
          estado := Estado.confirmado, timestamp := 1000 }])) ∧
    ((validar
        [{ id := 2, nombre := "b", telefono := "t", correo := "c",
           numeros := some [7, 8], referencia := "R2", fecha := "f",
           estado := Estado.rechazado, timestamp := 1000 }] 2 true).2 =
      updateEstado
        [{ id := 2, nombre := "b", telefono := "t", correo := "c",
           numeros := some [7, 8], referencia := "R2", fecha := "f",
           estado := Estado.rechazado, timestamp := 1000 }] 2 Estado.confirmado) :=
  ⟨((C4_state_machine
      [{ id := 1, nombre := "a", telefono := "t", correo := "c",
         numeros := some [5, 6], referencia := "R1", fecha := "f",
         estado := Estado.confirmado, timestamp := 1000 }] 1 true
      { id := 1, nombre := "a", telefono := "t", correo := "c",
        numeros := some [5, 6], referencia := "R1", fecha := "f",
        estado := Estado.confirmado, timestamp := 1000 } rfl 9
      { nombre := "n", telefono := "t", correo := "c", numeros := some [1, 2],
        referencia := "R9", fecha := "f", timestamp := some 1 }).2.1 rfl).1,
   (C4_state_machine
      [{ id := 2, nombre := "b", telefono := "t", correo := "c",
         numeros := some [7, 8], referencia := "R2", fecha := "f",
         estado := Estado.rechazado, timestamp := 1000 }] 2 true
      { id := 2, nombre := "b", telefono := "t", correo := "c",
        numeros := some [7, 8], referencia := "R2", fecha := "f",
        estado := Estado.rechazado, timestamp := 1000 } rfl 9
      { nombre := "n", telefono := "t", correo := "c", numeros := some [1, 2],
        referencia := "R9", fecha := "f", timestamp := some 1 }).2.2 rfl⟩

/-- Claim C5: `validar` on an already-confirmed id answers 400 `Ya validada`;
`rechazar` on a confirmed id answers 400; `rechazar` on an already-rejected
id succeeds, re-setting `estado = 'rechazado'`; both endpoints answer 404 on
an unknown id.  The store is unchanged in every failure case. -/
theorem C5_lifecycle_guards (store : List Participacion) (id : Nat) (ok : Bool) :
    (∀ p, findById store id = some p → p.estado = Estado.confirmado →
      validar store id ok = (LifecycleResp.yaValidada, store) ∧
      rechazar store id ok = (LifecycleResp.noSePuedeRechazar, store)) ∧
    (∀ p, findById store id = some p → p.estado = Estado.rechazado →
      rechazar store id true =
        (LifecycleResp.ok, updateEstado store id Estado.rechazado)) ∧
    (findById store id = none →
      validar store id ok = (LifecycleResp.notFound, store) ∧
      rechazar store id ok = (LifecycleResp.notFound, store)) := by
  refine ⟨?_, ?_, ?_⟩
  · intro p hfind h
    constructor
    · unfold validar
      rw [hfind]
      simp only []
      rw [if_pos (by simp [h])]
    · unfold rechazar
      rw [hfind]
      simp only []
      rw [if_pos (by simp [h])]
  · intro p hfind h
    unfold rechazar
    rw [hfind]
    simp only []
    rw [if_neg (by simp [h])]
    rfl
  · intro hfind
    constructor
    · unfold validar
      rw [hfind]
    · unfold rechazar
      rw [hfind]

/-- Witness for C5 on a concrete store with a confirmed record (id 1) and a
rejected record (id 2), and the unknown id 99. -/
theorem C5_lifecycle_guards_witness :
    (validar
        [{ id := 1, nombre := "a", telefono := "t", correo := "c",
           numeros := some [5, 6], referencia := "R1", fecha := "f",
           estado := Estado.confirmado, timestamp := 1000 },
         { id := 2, nombre := "b", telefono := "t", correo := "c",
           numeros := some [7, 8], referencia := "R2", fecha := "f",
           estado := Estado.rechazado, timestamp := 1000 }] 1 true).1 =
      LifecycleResp.yaValidada ∧
    (rechazar
        [{ id := 1, nombre := "a", telefono := "t", correo := "c",
           numeros := some [5, 6], referencia := "R1", fecha := "f",
           estado := Estado.confirmado, timestamp := 1000 },
         { id := 2, nombre := "b", telefono := "t", correo := "c",
           numeros := some [7, 8], referencia := "R2", fecha := "f",
           estado := Estado.rechazado, timestamp := 1000 }] 2 true).1 =
      LifecycleResp.ok ∧
    (validar
        [{ id := 1, nombre := "a", telefono := "t", correo := "c",
           numeros := some [5, 6], referencia := "R1", fecha := "f",
           estado := Estado.confirmado, timestamp := 1000 },
         { id := 2, nombre := "b", telefono := "t", correo := "c",
           numeros := some [7, 8], referencia := "R2", fecha := "f",
           estado := Estado.rechazado, timestamp := 1000 }] 99 true).1 =
      LifecycleResp.notFound := by
  refine ⟨?_, ?_, ?_⟩
  · rw [((C5_lifecycle_guards
      [{ id := 1, nombre := "a", telefono := "t", correo := "c",
         numeros := some [5, 6], referencia := "R1", fecha := "f",
         estado := Estado.confirmado, timestamp := 1000 },
       { id := 2, nombre := "b", telefono := "t", correo := "c",
         numeros := some [7, 8], referencia := "R2", fecha := "f",
         estado := Estado.rechazado, timestamp := 1000 }] 1 true).1
      { id := 1, nombre := "a", telefono := "t", correo := "c",
        numeros := some [5, 6], referencia := "R1", fecha := "f",
        estado := Estado.confirmado, timestamp := 1000 } rfl rfl).1]
  · rw [((C5_lifecycle_guards
      [{ id := 1, nombre := "a", telefono := "t", correo := "c",
         numeros := some [5, 6], referencia := "R1", fecha := "f",
         estado := Estado.confirmado, timestamp := 1000 },
       { id := 2, nombre := "b", telefono := "t", correo := "c",
         numeros := some [7, 8], referencia := "R2", fecha := "f",
         estado := Estado.rechazado, timestamp := 1000 }] 2 true).2.1
      { id := 2, nombre := "b", telefono := "t", correo := "c",
        numeros := some [7, 8], referencia := "R2", fecha := "f",
        estado := Estado.rechazado, timestamp := 1000 } rfl rfl)]
  · rw [((C5_lifecycle_guards
      [{ id := 1, nombre := "a", telefono := "t", correo := "c",
         numeros := some [5, 6], referencia := "R1", fecha := "f",
         estado := Estado.confirmado, timestamp := 1000 },
       { id := 2, nombre := "b", telefono := "t", correo := "c",
         numeros := some [7, 8], referencia := "R2", fecha := "f",
         estado := Estado.rechazado, timestamp := 1000 }] 99 true).2.2 rfl).1]

/-- Claim C8: a notification (email) failure after a successful mutation does
not undo the mutation.  For `reservar`: a valid, conflict-free request with
a failing email is answered 500 yet the inserted row is in the store.  For
`validar`/`rechazar` on a non-confirmed record: the status update stays in
the store while the caller receives 500. -/
theorem C8_email_failure_keeps_mutation (store : List Participacion)
    (nextId : Nat) (r : ReservaRequest) (id : Nat) (p : Participacion) :
    (validReserva r = true →
      (r.numeros.getD []).filter (fun n => (ocupadosTodos store).contains n) = [] →
      store.filter (fun q => q.referencia == r.referencia) = [] →
      reservar store nextId r false =
        (ReservarResp.errorRegistrar, store ++ [nuevaParticipacion nextId r])) ∧
    (findById store id = some p → p.estado ≠ Estado.confirmado →
      validar store id false =
        (LifecycleResp.errorCorreo, updateEstado store id Estado.confirmado) ∧
      rechazar store id false =
        (LifecycleResp.errorCorreo, updateEstado store id Estado.rechazado)) := by
  constructor
  · intro hv hrep href
    have hl1 : ¬ 0 < ((r.numeros.getD []).filter
        (fun n => (ocupadosTodos store).contains n)).length := by
      rw [hrep]
      simp
    have hl2 : ¬ 0 < (store.filter (fun q => q.referencia == r.referencia)).length := by
      rw [href]
      simp
    unfold reservar
    rw [hv]
    rw [if_neg (by simp)]
    simp only []
    rw [if_neg hl1, if_neg hl2, if_neg (by simp)]
  · intro hfind hne
    constructor
    · unfold validar
      rw [hfind]
      simp only []
      rw [if_neg (by simp [hne])]
      rfl
    · unfold rechazar
      rw [hfind]
      simp only []
      rw [if_neg (by simp [hne])]
      rfl

/-- Witness for C8: on a store with one pending record, a fresh valid request
with a failing email is answered 500 with the row inserted, and `validar`
with a failing email answers 500 with the status updated. -/
theorem C8_email_failure_keeps_mutation_witness :
    reservar
        [{ id := 1, nombre := "a", telefono := "t", correo := "c",
           numeros := some [9, 10], referencia := "R1", fecha := "f",
           estado := Estado.pendiente, timestamp := 1000 }] 2
        { nombre := "b", telefono := "t", correo := "c", numeros := some [7, 8],
          referencia := "R2", fecha := "f", timestamp := some 2000 } false =
      (ReservarResp.errorRegistrar,
       [{ id := 1, nombre := "a", telefono := "t", correo := "c",
          numeros := some [9, 10], referencia := "R1", fecha := "f",
          estado := Estado.pendiente, timestamp := 1000 }] ++
        [nuevaParticipacion 2
          { nombre := "b", telefono := "t", correo := "c", numeros := some [7, 8],
            referencia := "R2", fecha := "f", timestamp := some 2000 }]) ∧
    validar
        [{ id := 1, nombre := "a", telefono := "t", correo := "c",
           numeros := some [9, 10], referencia := "R1", fecha := "f",
           estado := Estado.pendiente, timestamp := 1000 }] 1 false =
      (LifecycleResp.errorCorreo,
       updateEstado
        [{ id := 1, nombre := "a", telefono := "t", correo := "c",
           numeros := some [9, 10], referencia := "R1", fecha := "f",
           estado := Estado.pendiente, timestamp := 1000 }] 1 Estado.confirmado) :=
  ⟨(C8_email_failure_keeps_mutation
      [{ id := 1, nombre := "a", telefono := "t", correo := "c",
         numeros := some [9, 10], referencia := "R1", fecha := "f",
         estado := Estado.pendiente, timestamp := 1000 }] 2
      { nombre := "b", telefono := "t", correo := "c", numeros := some [7, 8],
        referencia := "R2", fecha := "f", timestamp := some 2000 } 1
      { id := 1, nombre := "a", telefono := "t", correo := "c",
        numeros := some [9, 10], referencia := "R1", fecha := "f",
        estado := Estado.pendiente, timestamp := 1000 }).1
      (by decide) (by decide) (by decide),
   ((C8_email_failure_keeps_mutation
      [{ id := 1, nombre := "a", telefono := "t", correo := "c",
         numeros := some [9, 10], referencia := "R1", fecha := "f",
         estado := Estado.pendiente, timestamp := 1000 }] 2
      { nombre := "b", telefono := "t", correo := "c", numeros := some [7, 8],
        referencia := "R2", fecha := "f", timestamp := some 2000 } 1
      { id := 1, nombre := "a", telefono := "t", correo := "c",
        numeros := some [9, 10], referencia := "R1", fecha := "f",
        estado := Estado.pendiente, timestamp := 1000 }).2 rfl (by decide)).1⟩

/-- Claim C9: the admission logic never de-duplicates the requested numbers
among themselves: the request `[5, 5]` on an empty store is accepted with
201 and the inserted record's `numeros` holds the duplicate pair `[5, 5]`. -/
theorem C9_duplicates_within_request :
    reservar [] 1
        { nombre := "n", telefono := "t", correo := "c", numeros := some [5, 5],
          referencia := "R1", fecha := "f", timestamp := some 1000 } true =
      (ReservarResp.creado 1,
       [{ id := 1, nombre := "n", telefono := "t", correo := "c",
          numeros := some [5, 5], referencia := "R1", fecha := "f",
          estado := Estado.pendiente, timestamp := 1000 }]) ∧
    ¬ ([5, 5] : List Int).Nodup := by
  constructor
  · rfl
  · decide

/-- Claim C10: a stored reservation whose `numeros` is null contributes no
numbers: dropping it changes neither the `/api/ocupados` occupied set nor
the occupied set of the admission conflict check, and both computations are
total on it (they return normally). -/
theorem C10_null_numeros_total (data : List Participacion) (W ahora : Int)
    (p : Participacion) (hnull : p.numeros = none) :
    computeOcupados (p :: data) W ahora = computeOcupados data W ahora ∧
    ocupadosTodos (p :: data) = ocupadosTodos data := by
  constructor
  · unfold computeOcupados
    rw [List.filter_cons]
    by_cases hf : ocupadosFiltro W ahora p = true
    · rw [if_pos hf, List.flatMap_cons, hnull]
      rfl
    · rw [if_neg hf]
  · unfold ocupadosTodos
    rw [List.flatMap_cons, hnull]
    rfl

/-- Witness for C10: a confirmed record with null `numeros` occupies
nothing. -/
theorem C10_null_numeros_total_witness :
    computeOcupados
        [{ id := 1, nombre := "a", telefono := "t", correo := "c",
           numeros := none, referencia := "R1", fecha := "f",
           estado := Estado.confirmado, timestamp := 1000 }] 1800000 2000 =
      computeOcupados [] 1800000 2000 ∧
    ocupadosTodos
        [{ id := 1, nombre := "a", telefono := "t", correo := "c",
           numeros := none, referencia := "R1", fecha := "f",
           estado := Estado.confirmado, timestamp := 1000 }] =
      ocupadosTodos [] :=
  C10_null_numeros_total [] 1800000 2000
    { id := 1, nombre := "a", telefono := "t", correo := "c",
      numeros := none, referencia := "R1", fecha := "f",
      estado := Estado.confirmado, timestamp := 1000 } rfl
